import Mathlib

/-!
Verification of the network-service core of `fabrictestbed_extensions`
(`fablib/network_service.py`): the L2 service-type resolver, the topology
validator, the per-service IP address allocator, and the facade operations
`add_interface` / `remove_interface` / `new_l2network`, together with the
`fablib_data` user-data persistence mechanism.

The Python code is shallowly embedded: every definition below is a direct
translation of the corresponding function in
`src/fabrictestbed_extensions/fablib/network_service.py` (line references in
the doc comments).  Python exceptions are modelled with `Except`; IP
addresses are modelled as natural numbers; an `ipaddress` network object is
modelled by its network address and host-bit count.
-/

deriving instance DecidableEq for Except

/-- The two network layers, mirroring `fim.slivers.network_service.NSLayer`. -/
inductive NSLayer where
  | L2
  | L3
deriving DecidableEq, Repr

/-- The service-type enumeration, mirroring the keys of
`NetworkService.network_service_map` (network_service.py lines 64-74). -/
inductive ServiceType where
  | L2Bridge
  | L2PTP
  | L2STS
  | PortMirror
  | FABNetv4
  | FABNetv6
  | FABNetv4Ext
  | FABNetv6Ext
  | L3VPN
deriving DecidableEq, Repr

/-- The layer of each service type as declared by FIM (`L2Bridge`, `L2PTP`,
`L2STS` and `PortMirror` are L2 services; the FABNet variants and `L3VPN` are
L3), matching the `fim_l2network_service_types` /
`fim_l3network_service_types` classification of network_service.py
lines 77-86 with `PortMirror` carried by FIM as an L2 service. -/
def ServiceType.layer : ServiceType → NSLayer
  | .FABNetv4 => .L3
  | .FABNetv6 => .L3
  | .FABNetv4Ext => .L3
  | .FABNetv6Ext => .L3
  | .L3VPN => .L3
  | _ => .L2

/-- Printable name of a service type, used to build error messages the way
the Python f-strings embed `type`. -/
def ServiceType.typeName : ServiceType → String
  | .L2Bridge => "L2Bridge"
  | .L2PTP => "L2PTP"
  | .L2STS => "L2STS"
  | .PortMirror => "PortMirror"
  | .FABNetv4 => "FABNetv4"
  | .FABNetv6 => "FABNetv6"
  | .FABNetv4Ext => "FABNetv4Ext"
  | .FABNetv6Ext => "FABNetv6Ext"
  | .L3VPN => "L3VPN"

/-- An `ipaddress.IPv4Network` / `IPv6Network` value, modelled by its network
address (as a natural number), the number of host bits
(`32 - prefixlen` resp. `128 - prefixlen`), and its family.  Iterating the
Python network object yields every address of the block in ascending order,
network address and (for IPv4) broadcast address included. -/
structure Subnet where
  networkAddress : Nat
  hostBits : Nat
  isV4 : Bool
deriving DecidableEq, Repr

/-- Number of addresses in the block (`subnet.num_addresses`). -/
def Subnet.numAddrs (s : Subnet) : Nat := 2 ^ s.hostBits

/-- The addresses of the block in ascending order: what Python's
`for host in subnet` iterates over. -/
def Subnet.addresses (s : Subnet) : List Nat :=
  (List.range s.numAddrs).map (fun j => s.networkAddress + j)

/-- The IPv4 broadcast address: the last address of the block. -/
def Subnet.broadcastAddress (s : Subnet) : Nat :=
  s.networkAddress + (s.numAddrs - 1)

/-- The host range of the subnet in the sense of claim C6 and spec section 3:
every address of the block except the network address and, for IPv4, the
broadcast address. -/
def Subnet.hostRange (s : Subnet) : List Nat :=
  s.addresses.filter
    (fun a => a ≠ s.networkAddress ∧ (s.isV4 = true → a ≠ s.broadcastAddress))

/-- The `fablib_data` blob persisted on an interface (keys `addr` and
`auto`), read by `add_interface` (network_service.py lines 1231-1239).
Modelled from the spec: the `Interface` accessors live in
`fablib/interface.py`, which is not part of the sources; per spec section 3
an interface carries an optional address and the auto-configuration flag. -/
structure IfaceData where
  addr : Option Nat
  auto : Bool
deriving DecidableEq, Repr

/-- An interface, as consumed by the resolver and the validator.
Modelled from the spec: `fablib/interface.py` and `fablib/node.py` are not
part of the sources; per spec section 3 an interface is identified by name
and carries a site, an owning node (a compute node or a facility
pass-through node, the node being optionally pinned to a host), a NIC model
string and an optional VLAN tag.  `site` stands for both
`interface.get_site()` and `interface.get_node().get_site()`,
`isFacilityPort` for `isinstance(interface.get_node(), FacilityPort)`,
`host` for `interface.get_node().get_host()`. -/
structure Interface where
  name : String
  site : String
  nodeName : String
  isFacilityPort : Bool
  model : String
  host : Option String
  vlan : Option String
  fablibData : IfaceData
deriving DecidableEq, Repr

/-- Number of distinct sites spanned by the interfaces:
`len(set(i.get_site() for i in interfaces))`. -/
def distinctSiteCount (interfaces : List Interface) : Nat :=
  ((interfaces.map (fun i => i.site)).dedup).length

/-- `facility_port_interfaces` of `__calculate_l2_nstype`. -/
def facilityPortCount (interfaces : List Interface) : Nat :=
  (interfaces.filter (fun i => i.isFacilityPort)).length

/-- `includes_facility_port` of `__calculate_l2_nstype`. -/
def includesFacilityPort (interfaces : List Interface) : Bool :=
  interfaces.any (fun i => i.isFacilityPort)

/-- `basic_nic_count` of `__calculate_l2_nstype`. -/
def basicNicCount (interfaces : List Interface) : Nat :=
  (interfaces.filter (fun i => i.model = "NIC_Basic")).length

/-- `NetworkService.__calculate_l2_nstype` (network_service.py
lines 132-191): computes the L2 service type implied by an interface list
and the explicit-route flag.  The Python function returns `None` when two
sites are spanned, the point-to-point condition fails and fewer than two
interfaces are present (modelled by `.ok none`; unreachable, since two
distinct sites require two interfaces), and raises when more than two sites
are spanned. -/
def calculate_l2_nstype (interfaces : List Interface) (ero_enabled : Bool) :
    Except String (Option ServiceType) :=
  if distinctSiteCount interfaces ≤ 1 then
    .ok (some .L2Bridge)
  else if distinctSiteCount interfaces = 2 then
    if ((includesFacilityPort interfaces = true ∧ facilityPortCount interfaces < 2)
          ∨ ero_enabled = true)
        ∧ basicNicCount interfaces = 0 then
      .ok (some .L2PTP)
    else if 2 ≤ interfaces.length then
      .ok (some .L2STS)
    else
      .ok none
  else
    .error "Invalid Network Service: Networks are limited to 2 unique sites."

/-- `nodes_per_site` of `__validate_nstype` (network_service.py
lines 256-263): for a site, the number of interfaces owned by non-facility
nodes at that site (the Python loop increments per interface). -/
def npsCount (interfaces : List Interface) (site : String) : Nat :=
  (interfaces.filter
    (fun i => i.isFacilityPort = false ∧ i.site = site)).length

/-- The "unbound node" violation message of `__validate_nstype`
(lines 271-275), parametrised by the node name the f-string embeds. -/
def msgUnbound (node : String) : String :=
  "Network type L2STS does not support multiple NIC_Basic interfaces on " ++
  "VMs residing on the same host. Please see Node.set_host(host_name) to " ++
  "explicitly bind a nodes to a specific host. Node " ++ node ++
  " is unbound."

/-- The "duplicate host" violation message of `__validate_nstype`
(lines 276-281), parametrised by the host name the f-string embeds. -/
def msgDupHost (host : String) : String :=
  "Network type L2STS does not support multiple NIC_Basic interfaces on " ++
  "VMs residing on the same host. Please see Node.set_host(host_name) to " ++
  "explicitly bind a nodes to a specific host. Multiple nodes bound to " ++
  host ++ "."

/-- One iteration of the second `for interface in interfaces` loop of
`__validate_nstype` (lines 264-283).  The accumulator carries the `hosts`
set and the `exception_list`; `nps` is the `nodes_per_site` table computed
by the first loop. -/
def stsStep (nps : String → Nat) (acc : List String × List String)
    (i : Interface) : List String × List String :=
  if i.model = "NIC_Basic" ∧ 1 < nps i.site then
    match i.host with
    | none => (acc.1, acc.2 ++ [msgUnbound i.nodeName])
    | some h =>
      if h ∈ acc.1 then (acc.1, acc.2 ++ [msgDupHost h])
      else (acc.1 ++ [h], acc.2)
  else acc

/-- The host-colocation violations collected for an `L2STS` service with
more than two interfaces (lines 254-283). -/
def stsViolations (interfaces : List Interface) : List String :=
  (interfaces.foldl (stsStep (npsCount interfaces)) ([], [])).2

/-- The two-site violation message of `__validate_nstype` for `L2PTP` and
`L2STS` (lines 237-241 and 249-253). -/
def msgTwoSites (t : ServiceType) (n : Nat) : String :=
  "Network type " ++ t.typeName ++
  " must include interfaces from exactly two sites. " ++ toString n ++
  " sites requested."

/-- `NetworkService.__validate_nstype` (network_service.py lines 193-290):
checks a service type against an interface list.  An empty interface list
validates immediately.  Python raises a single `Exception`; for the
branches that raise one message the error payload here is the singleton
list of that message, and for the `L2STS` branch it is the collected
`exception_list` (the Python code renders that list into the exception
string). -/
def validate_nstype (t : ServiceType) (interfaces : List Interface) :
    Except (List String) Bool :=
  if interfaces.length = 0 then .ok true
  else
    match t with
    | .L2Bridge =>
      if 1 < distinctSiteCount interfaces then
        .error ["Network type L2Bridge must be empty or include " ++
                "interfaces from exactly one site. " ++
                toString (distinctSiteCount interfaces) ++
                " sites requested."]
      else .ok true
    | .L2PTP =>
      if distinctSiteCount interfaces ≠ 2 then
        .error [msgTwoSites .L2PTP (distinctSiteCount interfaces)]
      else if "NIC_Basic" ∈ (interfaces.map (fun i => i.model)).dedup then
        .error ["Network type L2PTP does not support interfaces of type " ++
                "NIC_Basic"]
      else .ok true
    | .L2STS =>
      let exception_list :=
        (if distinctSiteCount interfaces ≠ 2 then
           [msgTwoSites .L2STS (distinctSiteCount interfaces)]
         else []) ++
        (if 2 < interfaces.length then stsViolations interfaces else [])
      if 0 < exception_list.length then .error exception_list else .ok true
    | _ => .error ["Unknown network type " ++ t.typeName]

/-- The `subnet` sub-dictionary of the service `fablib_data` blob
(network_service.py lines 1304-1323 and 1325-1402).  Each field models the
presence (and, for `subnet`, parseability) of the corresponding key:
`subnet` is the parsed CIDR of the `subnet` string key, `gateway` the
parsed `gateway` key, `allocated` the `allocated_ips` key. -/
structure SubnetInfo where
  subnet : Option Subnet
  gateway : Option Nat
  allocated : Option (List Nat)
deriving DecidableEq, Repr

/-- The service `fablib_data` blob (spec section 3): the `instantiated`
string (`"True"` or `"False"`), the `mode` string and the optional `subnet`
sub-dictionary.  `init_fablib_data` (lines 1419-1424) always materialises
`instantiated` and `mode`, so they are modelled as always present. -/
structure FablibData where
  instantiated : String
  mode : String
  subnetInfo : Option SubnetInfo
deriving DecidableEq, Repr

/-- The facade state of one `NetworkService` instance: the underlying FIM
service (name, type, explicit-route flag, connected interfaces), the
persisted `fablib_data` blob, and the subnet the reservation subsystem
reports for an instantiated L3 service (`get_sliver().fim_sliver.gateway`,
an external collaborator). -/
structure NetworkServiceState where
  name : String
  nstype : ServiceType
  ero : Bool
  interfaces : List Interface
  fablibData : FablibData
  sliverSubnet : Option Subnet
  sliverSite : Option String
deriving DecidableEq, Repr

/-- `init_fablib_data` (network_service.py lines 1419-1424). -/
def init_fablib_data : FablibData :=
  { instantiated := "False", mode := "manual", subnetInfo := none }

/-- `is_instantiated` (lines 1426-1434): true when the blob carries
`instantiated == "True"`. -/
def is_instantiated (st : NetworkServiceState) : Bool :=
  st.fablibData.instantiated = "True"

/-- The network object produced by `get_subnet` (lines 1028-1059), exactly
when the Python value passes the allocator's
`type(subnet) == ipaddress.IPv4Network or type(subnet) == IPv6Network`
test: for a non-instantiated service `get_subnet` returns the placeholder
string `"<name>.subnet"` (truthy but not a network, hence `none` here); for
an instantiated L3 service it parses the sliver gateway subnet; for an
instantiated L2 service it parses `fablib_data["subnet"]["subnet"]`. -/
def get_subnet_net (st : NetworkServiceState) : Option Subnet :=
  if is_instantiated st then
    match st.nstype.layer with
    | .L3 => st.sliverSubnet
    | .L2 =>
      match st.fablibData.subnetInfo with
      | some si => si.subnet
      | none => none
  else none

/-- Truthiness of `get_subnet()` as tested by `add_interface`
(line 1241): a non-instantiated service yields the nonempty placeholder
string (truthy); an instantiated one yields a network object or `None`. -/
def get_subnet_truthy (st : NetworkServiceState) : Bool :=
  !(is_instantiated st) || (get_subnet_net st).isSome

/-- `get_allocated_ips` (lines 1325-1336): the `allocated_ips` list of the
blob, or the empty list when the keys are missing (the Python `except`
branch). -/
def get_allocated_ips (fd : FablibData) : List Nat :=
  (fd.subnetInfo.bind (fun si => si.allocated)).getD []

/-- `set_allocated_ip` (lines 1338-1347): appends an address to
`fablib_data["subnet"]["allocated_ips"]`.  The Python code creates an empty
`subnet` dictionary when the key is absent and then reads
`["allocated_ips"]` from it, so a blob without an `allocated_ips` key makes
it raise `KeyError` before persisting anything. -/
def set_allocated_ip (fd : FablibData) (a : Nat) : Except String FablibData :=
  match fd.subnetInfo with
  | some si =>
    match si.allocated with
    | some l =>
      .ok { fd with subnetInfo := some { si with allocated := some (l ++ [a]) } }
    | none => .error "KeyError: allocated_ips"
  | none => .error "KeyError: allocated_ips"

/-- `set_allocated_ips` (lines 1376-1389): overwrites the whole
`allocated_ips` list, creating the `subnet` dictionary if needed. -/
def set_allocated_ips (fd : FablibData) (l : List Nat) : FablibData :=
  match fd.subnetInfo with
  | some si => { fd with subnetInfo := some { si with allocated := some l } }
  | none =>
    { fd with subnetInfo := some ⟨none, none, some l⟩ }

/-- `set_subnet` (lines 1304-1313): stores the subnet string and resets
`allocated_ips` to the empty list, preserving any existing gateway key. -/
def set_subnet_fd (fd : FablibData) (s : Subnet) : FablibData :=
  match fd.subnetInfo with
  | some si =>
    { fd with subnetInfo := some { si with subnet := some s, allocated := some [] } }
  | none =>
    { fd with subnetInfo := some ⟨some s, none, some []⟩ }

/-- The `for host in subnet` scan of `allocate_ip` (lines 1367-1371):
returns the first listed address that is neither the network address nor
already allocated. -/
def scanHosts (na : Nat) (allocated : List Nat) : List Nat → Option Nat
  | [] => none
  | h :: rest =>
    if h ≠ na ∧ h ∉ allocated then some h else scanHosts na allocated rest

/-- `allocate_ip` (network_service.py lines 1349-1374).  With a requested
address: records and returns it unless already allocated, in which case it
returns `None`.  With no requested address: when `get_subnet()` is an
actual network object, scans its addresses for the first free non-network
one; otherwise returns `None`.  The result pairs the returned address with
the post-call service state. -/
def allocate_ip (st : NetworkServiceState) (addr : Option Nat) :
    Except String (Option Nat × NetworkServiceState) :=
  let allocated := get_allocated_ips st.fablibData
  match addr with
  | some a =>
    if a ∉ allocated then
      match set_allocated_ip st.fablibData a with
      | .ok fd => .ok (some a, { st with fablibData := fd })
      | .error e => .error e
    else .ok (none, st)
  | none =>
    match get_subnet_net st with
    | some s =>
      match scanHosts s.networkAddress allocated s.addresses with
      | some h =>
        match set_allocated_ip st.fablibData h with
        | .ok fd => .ok (some h, { st with fablibData := fd })
        | .error e => .error e
      | none => .ok (none, st)
    | none => .ok (none, st)

/-- `free_ip` (lines 1391-1402): removes the first occurrence of the
address from the allocated list when present (`None` is never a member)
and persists the list back. -/
def free_ip (st : NetworkServiceState) (addr : Option Nat) :
    NetworkServiceState :=
  let allocated := get_allocated_ips st.fablibData
  let allocated2 :=
    match addr with
    | some a => if a ∈ allocated then allocated.erase a else allocated
    | none => allocated
  { st with fablibData := set_allocated_ips st.fablibData allocated2 }

/-- One allocator operation of claim C6: an automatic allocation, an
allocation of a requested address, or a free. -/
inductive AllocOp where
  | auto
  | req (a : Nat)
  | free (a : Nat)
deriving DecidableEq, Repr

/-- Apply one allocator operation to the service state.  A `KeyError`
raised by `set_allocated_ip` propagates before anything is persisted, so a
failed call leaves the state unchanged. -/
def applyOp (st : NetworkServiceState) : AllocOp → NetworkServiceState
  | .auto =>
    match allocate_ip st none with
    | .ok (_, st2) => st2
    | .error _ => st
  | .req a =>
    match allocate_ip st (some a) with
    | .ok (_, st2) => st2
    | .error _ => st
  | .free a => free_ip st (some a)

/-- Run a sequence of allocator operations. -/
def runOps (st : NetworkServiceState) (ops : List AllocOp) :
    NetworkServiceState :=
  ops.foldl applyOp st

/-- `N` successive automatic `allocate_ip()` calls, collecting the
returned addresses in order. -/
def allocAutoN (st : NetworkServiceState) : Nat → List Nat × NetworkServiceState
  | 0 => ([], st)
  | n + 1 =>
    let p := allocAutoN st n
    match allocate_ip p.2 none with
    | .ok (some h, st2) => (p.1 ++ [h], st2)
    | .ok (none, st2) => (p.1, st2)
    | .error _ => (p.1, p.2)

/-- The service state whose blob carries the given `allocated_ips` list
under the given `subnet` sub-dictionary: the shape every allocator
operation preserves.  Proof abbreviation, not a translation. -/
def withAllocated (st : NetworkServiceState) (si : SubnetInfo)
    (l : List Nat) : NetworkServiceState :=
  { st with fablibData :=
      { st.fablibData with subnetInfo := some { si with allocated := some l } } }

/-- `get_site` (lines 875-884): the site the reservation subsystem reports
for the service sliver; `None` when unavailable. -/
def get_site (st : NetworkServiceState) : Option String := st.sliverSite

/-- `__replace_network_service` (network_service.py lines 1186-1200): the
type-migration step.  It disconnects every current interface from the old
FIM object, saves the user-data blob, removes the old service, adds a new
service of the computed type with the same name and the full interface
list, and restores the user data.  Net effect on the facade state: the type
is replaced, the interface list is the given one, and everything else (name
and blob included) is preserved. -/
def replace_network_service (st : NetworkServiceState)
    (nstype : ServiceType) (newInterfaces : List Interface) :
    NetworkServiceState :=
  { st with nstype := nstype, interfaces := newInterfaces }

/-- `add_interface` (network_service.py lines 1202-1250).  Rejects
`PortMirror` services outright.  For an L2 service, recomputes the type
over the extended interface list and migrates via
`__replace_network_service` when it changed, otherwise connects the
interface.  For an instantiated L3 service, rejects an interface from
another site.  When `get_subnet()` is truthy and the interface carries an
`addr` key or `auto` flag, allocates an address and stores it in the
interface blob (Python stores `str(result)`, so a failed allocation stores
the string `"None"`; modelled as the `Option` result).  Returns the updated
service state and the updated interface. -/
def add_interface (st : NetworkServiceState) (i : Interface) :
    Except String (NetworkServiceState × Interface) :=
  if st.nstype = .PortMirror then
    .error ("Interfaces cannot be attached to PortMirror service - they " ++
            "can only be specified at service creation")
  else
    let iface_fablib_data := i.fablibData
    let new_interfaces := st.interfaces ++ [i]
    let step1 : Except String NetworkServiceState :=
      if st.nstype.layer = .L2 then
        match calculate_l2_nstype new_interfaces st.ero with
        | .error e => .error e
        | .ok new_nstype =>
          if some st.nstype ≠ new_nstype then
            match new_nstype with
            | some t => .ok (replace_network_service st t new_interfaces)
            | none => .error "cannot create a service of type None"
          else .ok { st with interfaces := new_interfaces }
      else if st.nstype.layer = .L3 ∧ is_instantiated st = true then
        if get_site st ≠ some i.site then
          .error "L3 networks can only include nodes from one site"
        else .ok st
      else .ok st
    match step1 with
    | .error e => .error e
    | .ok st1 =>
      let addrStep : Except String (IfaceData × NetworkServiceState) :=
        if get_subnet_truthy st1 = true then
          match iface_fablib_data.addr with
          | some a =>
            match allocate_ip st1 (some a) with
            | .ok (r, st2) => .ok ({ iface_fablib_data with addr := r }, st2)
            | .error e => .error e
          | none =>
            if iface_fablib_data.auto = true then
              match allocate_ip st1 none with
              | .ok (r, st2) => .ok ({ iface_fablib_data with addr := r }, st2)
              | .error e => .error e
            else .ok (iface_fablib_data, st1)
        else .ok (iface_fablib_data, st1)
      match addrStep with
      | .error e => .error e
      | .ok (ifd, st2) =>
        let i2 : Interface := { i with fablibData := ifd }
        let st3 : NetworkServiceState :=
          { st2 with interfaces :=
              st2.interfaces.map (fun j => if j = i then i2 else j) }
        if st2.nstype.layer = .L3 then
          .ok ({ st3 with interfaces := st3.interfaces ++ [i2] }, i2)
        else .ok (st3, i2)

/-- `remove_interface` (network_service.py lines 1252-1276): frees the
address the departing interface holds, drops it from the cached interface
list, recomputes the L2 type over the remaining interfaces (migrating when
it changed), writes the interface blob back and disconnects the interface
from the FIM object.  There is no `PortMirror` guard. -/
def remove_interface (st : NetworkServiceState) (i : Interface) :
    Except String NetworkServiceState :=
  let st1 := free_ip st i.fablibData.addr
  let interfaces2 :=
    if i ∈ st1.interfaces then st1.interfaces.erase i else st1.interfaces
  let step : Except String NetworkServiceState :=
    if st1.nstype.layer = .L2 then
      match calculate_l2_nstype interfaces2 st1.ero with
      | .error e => .error e
      | .ok new_nstype =>
        if some st1.nstype ≠ new_nstype then
          match new_nstype with
          | some t => .ok (replace_network_service st1 t interfaces2)
          | none => .error "cannot create a service of type None"
        else .ok { st1 with interfaces := interfaces2 }
    else .ok { st1 with interfaces := interfaces2 }
  match step with
  | .error e => .error e
  | .ok st2 => .ok { st2 with interfaces := st2.interfaces.erase i }

/-- The VLAN pairing applied by `new_l2network` to the first two interfaces
of a newly created strict point-to-point service (lines 443-460): if
neither has a VLAN both get the default `"100"`, if exactly one has a VLAN
the other is set to match, and if both have one nothing changes. -/
def pairVlans (i0 i1 : Interface) : Interface × Interface :=
  match i0.vlan, i1.vlan with
  | none, none =>
    ({ i0 with vlan := some "100" }, { i1 with vlan := some "100" })
  | none, some v => ({ i0 with vlan := some v }, i1)
  | some v, none => (i0, { i1 with vlan := some v })
  | some _, some _ => (i0, i1)

/-- The `fim_l2network_service_types` table (line 77). -/
def fim_l2network_service_types : List String := ["L2Bridge", "L2PTP", "L2STS"]

/-- Lookup of an L2 type name in `network_service_map` (lines 64-74). -/
def l2TypeOfString (t : String) : Option ServiceType :=
  if t = "L2Bridge" then some .L2Bridge
  else if t = "L2PTP" then some .L2PTP
  else if t = "L2STS" then some .L2STS
  else none

/-- `new_l2network` (network_service.py lines 405-473): resolves the type
(explicitly or via `__calculate_l2_nstype` with `ero_enabled` defaulted to
false), validates it, applies the VLAN pairing for a nonempty `L2PTP`
service, and creates the service with a freshly initialised blob
(`set_user_data` followed by `init_fablib_data`).  Accessing
`interfaces[1]` of a one-element list would raise `IndexError` in Python;
that branch is unreachable because a one-interface list never validates as
`L2PTP`. -/
def new_l2network (name : String) (interfaces : List Interface)
    (typ : Option String) : Except (List String) NetworkServiceState :=
  let tyStep : Except (List String) (Option ServiceType) :=
    match typ with
    | none =>
      match calculate_l2_nstype interfaces false with
      | .ok t => .ok t
      | .error e => .error [e]
    | some t =>
      match l2TypeOfString t with
      | some nst => .ok (some nst)
      | none => .error ["Invalid l2 network type"]
  match tyStep with
  | .error e => .error e
  | .ok none => .error ["cannot create a service of type None"]
  | .ok (some nstype) =>
    match validate_nstype nstype interfaces with
    | .error errs => .error errs
    | .ok _ =>
      let vlanStep : Except (List String) (List Interface) :=
        if nstype = .L2PTP ∧ interfaces.length ≠ 0 then
          match interfaces with
          | i0 :: i1 :: rest =>
            let p := pairVlans i0 i1
            .ok (p.1 :: p.2 :: rest)
          | _ => .error ["IndexError: list index out of range"]
        else .ok interfaces
      match vlanStep with
      | .error e => .error e
      | .ok interfaces2 =>
        .ok { name := name, nstype := nstype, ero := false,
              interfaces := interfaces2, fablibData := init_fablib_data,
              sliverSubnet := none, sliverSite := none }

/-- A JSON value as stored through the FIM `user_data` property: the
fragment needed for the metadata blob (strings, arrays, string-keyed
objects).  `json.dumps` followed by `json.loads` is the identity on these
values, so the property is modelled as holding the value itself;
`none` models an unset or unparseable property (swallowed by the
`except` in `get_user_data`, lines 1177-1184). -/
inductive JValue where
  | str (s : String)
  | arr (xs : List JValue)
  | obj (fields : List (String × JValue))

/-- `get_user_data` (lines 1177-1184): the parsed dictionary, or the empty
dictionary when the property is unset or not an object. -/
def getUserDataStore : Option JValue → List (String × JValue)
  | some (.obj m) => m
  | _ => []

/-- `set_user_data` (lines 1167-1175): serialises the dictionary into the
property. -/
def set_user_data (m : List (String × JValue)) : Option JValue :=
  some (.obj m)

/-- Python dictionary assignment `d[k] = v`: replaces the value in place
when the key exists, appends otherwise. -/
def assocSet : List (String × JValue) → String → JValue →
    List (String × JValue)
  | [], k, v => [(k, v)]
  | (k2, v2) :: rest, k, v =>
    if k2 = k then (k, v) :: rest else (k2, v2) :: assocSet rest k v

/-- Python dictionary lookup `d[k]` as an `Option`. -/
def assocGet : List (String × JValue) → String → Option JValue
  | [], _ => none
  | (k2, v2) :: rest, k => if k2 = k then some v2 else assocGet rest k

/-- `set_fablib_data` (lines 1296-1302): reads the user data, replaces its
`fablib_data` entry and writes it back. -/
def set_fablib_data (store : Option JValue) (x : JValue) : Option JValue :=
  set_user_data (assocSet (getUserDataStore store) "fablib_data" x)

/-- `get_fablib_data` (lines 1287-1294): the `fablib_data` entry of the
user data, or the empty dictionary when absent. -/
def get_fablib_data (store : Option JValue) : JValue :=
  (assocGet (getUserDataStore store) "fablib_data").getD (.obj [])

/-- The /30-shaped IPv4 subnet used by the concrete allocator inputs:
network address 0, four addresses 0-3, broadcast address 3, host range
1-2. -/
def subnet30 : Subnet := { networkAddress := 0, hostBits := 2, isV4 := true }

/-- An instantiated L2 bridge service carrying `subnet30` with an empty
allocated list, used as the concrete allocator witness input. -/
def c2State : NetworkServiceState :=
  { name := "net1", nstype := .L2Bridge, ero := false, interfaces := [],
    fablibData := ⟨"True", "manual", some ⟨some subnet30, none, some []⟩⟩,
    sliverSubnet := none, sliverSite := none }

/-- An instantiated L2 bridge service with no subnet configured yet, used
as the concrete base state of the claim C6 counterexample. -/
def c6Base : NetworkServiceState :=
  { name := "net6", nstype := .L2Bridge, ero := false, interfaces := [],
    fablibData := ⟨"True", "manual", none⟩,
    sliverSubnet := none, sliverSite := none }

/-- `c6Base` right after `set_subnet(subnet30)`. -/
def c6Init : NetworkServiceState :=
  { c6Base with fablibData := set_subnet_fd c6Base.fablibData subnet30 }

/-- A `PortMirror` service holding two interfaces, the concrete input of
claim C7. -/
def pmIfaceA : Interface :=
  { name := "pmA", site := "SiteA", nodeName := "nodeA",
    isFacilityPort := false, model := "NIC_ConnectX_5", host := none,
    vlan := none, fablibData := { addr := none, auto := false } }

/-- The second interface of the claim C7 `PortMirror` service. -/
def pmIfaceB : Interface :=
  { name := "pmB", site := "SiteA", nodeName := "nodeB",
    isFacilityPort := false, model := "NIC_ConnectX_5", host := none,
    vlan := none, fablibData := { addr := none, auto := false } }

/-- An interface one might try to attach to the claim C7 `PortMirror`
service. -/
def pmIfaceC : Interface :=
  { name := "pmC", site := "SiteB", nodeName := "nodeC",
    isFacilityPort := false, model := "NIC_ConnectX_5", host := none,
    vlan := none, fablibData := { addr := none, auto := false } }

/-- The claim C7 `PortMirror` service state. -/
def pmState : NetworkServiceState :=
  { name := "pm1", nstype := .PortMirror, ero := false,
    interfaces := [pmIfaceA, pmIfaceB],
    fablibData := ⟨"False", "manual", none⟩,
    sliverSubnet := none, sliverSite := none }

/-- What `remove_interface` actually produces on `pmState`: the departing
interface is detached and the service is even migrated to `L2Bridge`
(`free_ip` also materialises an empty `allocated_ips` list). -/
def pmAfterRemove : NetworkServiceState :=
  { name := "pm1", nstype := .L2Bridge, ero := false,
    interfaces := [pmIfaceB],
    fablibData := ⟨"False", "manual", some ⟨none, none, some []⟩⟩,
    sliverSubnet := none, sliverSite := none }

/-- A single-interface L2 bridge, the claim C10 counterexample base: adding
a facility interface at a second site newly forms an `L2PTP` service. -/
def c10Iface1 : Interface :=
  { name := "c10a", site := "SiteA", nodeName := "node1",
    isFacilityPort := false, model := "NIC_ConnectX_5", host := none,
    vlan := none, fablibData := { addr := none, auto := false } }

/-- The facility interface added in the claim C10 counterexample. -/
def c10Iface2 : Interface :=
  { name := "c10b", site := "SiteB", nodeName := "fac1",
    isFacilityPort := true, model := "NIC_ConnectX_5", host := none,
    vlan := none, fablibData := { addr := none, auto := false } }

/-- The claim C10 counterexample service state before the mutation. -/
def c10State : NetworkServiceState :=
  { name := "net10", nstype := .L2Bridge, ero := false,
    interfaces := [c10Iface1],
    fablibData := ⟨"False", "manual", none⟩,
    sliverSubnet := none, sliverSite := none }

/-- What `add_interface` actually produces on `c10State` plus `c10Iface2`:
the service migrates to `L2PTP` but no VLAN is assigned. -/
def c10After : NetworkServiceState :=
  { name := "net10", nstype := .L2PTP, ero := false,
    interfaces := [c10Iface1, c10Iface2],
    fablibData := ⟨"False", "manual", none⟩,
    sliverSubnet := none, sliverSite := none }

/-- First interface of the claim C4 witness service: a facility port at
one site (which is what lets a two-interface service be `L2PTP`). -/
def c4Iface1 : Interface :=
  { name := "c4a", site := "SiteA", nodeName := "fac4",
    isFacilityPort := true, model := "NIC_ConnectX_5", host := none,
    vlan := some "100", fablibData := { addr := none, auto := false } }

/-- Second interface of the claim C4 witness service. -/
def c4Iface2 : Interface :=
  { name := "c4b", site := "SiteB", nodeName := "node4",
    isFacilityPort := false, model := "NIC_ConnectX_5", host := none,
    vlan := some "100", fablibData := { addr := none, auto := false } }

/-- The third interface added in the claim C4 witness: a basic NIC, which
defeats the point-to-point condition and drives the resolver to `L2STS`. -/
def c4Iface3 : Interface :=
  { name := "c4c", site := "SiteA", nodeName := "node5",
    isFacilityPort := false, model := "NIC_Basic", host := none,
    vlan := none, fablibData := { addr := none, auto := false } }

/-- The claim C4 witness service: a two-interface `L2PTP` service with a
configured subnet in its blob. -/
def c4State : NetworkServiceState :=
  { name := "net4", nstype := .L2PTP, ero := false,
    interfaces := [c4Iface1, c4Iface2],
    fablibData := ⟨"False", "manual", some ⟨some subnet30, some 1, some [1]⟩⟩,
    sliverSubnet := none, sliverSite := none }

/-- First interface of the claim C10 witness creation: a facility port
with no VLAN tag. -/
def vlanWIface0 : Interface :=
  { name := "vw0", site := "SiteA", nodeName := "facV",
    isFacilityPort := true, model := "NIC_ConnectX_5", host := none,
    vlan := none, fablibData := { addr := none, auto := false } }

/-- Second interface of the claim C10 witness creation, carrying VLAN
`"200"`. -/
def vlanWIface1 : Interface :=
  { name := "vw1", site := "SiteB", nodeName := "nodeV",
    isFacilityPort := false, model := "NIC_ConnectX_5", host := none,
    vlan := some "200", fablibData := { addr := none, auto := false } }

/-- Claim C3 scenario, interface A: an unpinned `NIC_Basic` interface at
site1. -/
def c3IfaceA : Interface :=
  { name := "A", site := "site1", nodeName := "nodeA",
    isFacilityPort := false, model := "NIC_Basic", host := none,
    vlan := none, fablibData := { addr := none, auto := false } }

/-- Claim C3 scenario, interface B: a second unpinned `NIC_Basic`
interface at site1 on a different node. -/
def c3IfaceB : Interface :=
  { name := "B", site := "site1", nodeName := "nodeB",
    isFacilityPort := false, model := "NIC_Basic", host := none,
    vlan := none, fablibData := { addr := none, auto := false } }

/-- Claim C3 scenario, interface D: a `NIC_Basic` interface at site1 whose
node is pinned to `host1`. -/
def c3IfaceD : Interface :=
  { name := "D", site := "site1", nodeName := "nodeD",
    isFacilityPort := false, model := "NIC_Basic", host := some "host1",
    vlan := none, fablibData := { addr := none, auto := false } }

/-- Claim C3 scenario, interface E: a second `NIC_Basic` interface at
site1 whose (distinct) node is pinned to the same `host1`. -/
def c3IfaceE : Interface :=
  { name := "E", site := "site1", nodeName := "nodeE",
    isFacilityPort := false, model := "NIC_Basic", host := some "host1",
    vlan := none, fablibData := { addr := none, auto := false } }

/-- Claim C3 scenario, interface C: a dedicated-NIC interface at site2. -/
def c3IfaceC : Interface :=
  { name := "C", site := "site2", nodeName := "nodeC",
    isFacilityPort := false, model := "NIC_ConnectX_5", host := none,
    vlan := none, fablibData := { addr := none, auto := false } }

/-- The claim C3 witness interface list: both violation kinds are present —
A and B lack a host pin, D and E are pinned to the same host. -/
def c3List : List Interface :=
  [c3IfaceA, c3IfaceB, c3IfaceD, c3IfaceE, c3IfaceC]

/-- A counterexample input for claim C1: two interfaces at two distinct
sites, neither a facility port, neither a basic NIC. -/
def c1CexInterfaces : List Interface :=
  [{ name := "ifaceA", site := "SiteA", nodeName := "nodeA",
     isFacilityPort := false, model := "NIC_ConnectX_5", host := none,
     vlan := none, fablibData := { addr := none, auto := false } },
   { name := "ifaceB", site := "SiteB", nodeName := "nodeB",
     isFacilityPort := false, model := "NIC_ConnectX_5", host := none,
     vlan := none, fablibData := { addr := none, auto := false } }]

/-- Claim C1 (counterexample).  The claim states that with exactly two
interfaces at two sites, zero `NIC_Basic` interfaces, explicit routing
disabled and fewer than two facility interfaces, the resolver returns
`L2PTP`.  On an interface pair with zero facility interfaces (zero is fewer
than two) the code returns `L2STS`, not `L2PTP`: the point-to-point branch
additionally requires at least one facility interface. -/
theorem c1_counterexample :
    distinctSiteCount c1CexInterfaces = 2 ∧
    c1CexInterfaces.length = 2 ∧
    basicNicCount c1CexInterfaces = 0 ∧
    facilityPortCount c1CexInterfaces < 2 ∧
    calculate_l2_nstype c1CexInterfaces false = .ok (some .L2STS) ∧
    calculate_l2_nstype c1CexInterfaces false ≠ .ok (some .L2PTP) := by
  refine ⟨by decide, by decide, by decide, by decide, by decide, by decide⟩

/-- Claim C1 (amended).  For every interface list spanning exactly two
distinct sites the resolver returns `L2PTP` exactly when there are zero
`NIC_Basic` interfaces and either explicit routing is requested or the list
includes at least one and fewer than two facility interfaces; in every other
case it returns `L2STS` (two distinct sites force at least two
interfaces). -/
theorem calculate_l2_nstype_two_sites (interfaces : List Interface)
    (ero_enabled : Bool) (h2 : distinctSiteCount interfaces = 2) :
    calculate_l2_nstype interfaces ero_enabled =
      .ok (some
        (if ((includesFacilityPort interfaces = true ∧
                facilityPortCount interfaces < 2) ∨ ero_enabled = true)
            ∧ basicNicCount interfaces = 0
         then ServiceType.L2PTP else ServiceType.L2STS)) := by
  have hlen : 2 ≤ interfaces.length := by
    have hsub : (interfaces.map (fun i => i.site)).dedup.Sublist
        (interfaces.map (fun i => i.site)) := List.dedup_sublist _
    have h3 := hsub.length_le
    have h4 : ((interfaces.map (fun i => i.site)).dedup).length = 2 := h2
    simp only [List.length_map] at h3
    omega
  unfold calculate_l2_nstype
  rw [if_neg (by omega), if_pos h2]
  by_cases hc : ((includesFacilityPort interfaces = true ∧
      facilityPortCount interfaces < 2) ∨ ero_enabled = true)
      ∧ basicNicCount interfaces = 0
  · rw [if_pos hc, if_pos hc]
  · rw [if_neg hc, if_neg hc, if_pos hlen]

/-- Witness for `calculate_l2_nstype_two_sites` at a concrete input: a
facility-port/compute pair at two sites with no basic NIC resolves to
`L2PTP`. -/
theorem calculate_l2_nstype_two_sites_witness :
    calculate_l2_nstype
      [{ name := "ifaceF", site := "SiteA", nodeName := "fac1",
         isFacilityPort := true, model := "NIC_ConnectX_5", host := none,
         vlan := none, fablibData := { addr := none, auto := false } },
       { name := "ifaceB", site := "SiteB", nodeName := "nodeB",
         isFacilityPort := false, model := "NIC_ConnectX_5", host := none,
         vlan := none, fablibData := { addr := none, auto := false } }] false
    = .ok (some ServiceType.L2PTP) := by
  have h := calculate_l2_nstype_two_sites
    [{ name := "ifaceF", site := "SiteA", nodeName := "fac1",
       isFacilityPort := true, model := "NIC_ConnectX_5", host := none,
       vlan := none, fablibData := { addr := none, auto := false } },
     { name := "ifaceB", site := "SiteB", nodeName := "nodeB",
       isFacilityPort := false, model := "NIC_ConnectX_5", host := none,
       vlan := none, fablibData := { addr := none, auto := false } }]
    false (by decide)
  rw [h]
  decide

/-- Claim C5: `__calculate_l2_nstype` raises exactly on interface lists
spanning more than two distinct sites; lists spanning at most two sites
never make it raise. -/
theorem calculate_l2_nstype_error_iff (interfaces : List Interface)
    (ero_enabled : Bool) :
    (∃ e, calculate_l2_nstype interfaces ero_enabled = .error e) ↔
      2 < distinctSiteCount interfaces := by
  unfold calculate_l2_nstype
  by_cases h1 : distinctSiteCount interfaces ≤ 1
  · simp [h1]
    omega
  · by_cases h2 : distinctSiteCount interfaces = 2
    · rw [if_neg h1, if_pos h2]
      constructor
      · rintro ⟨e, he⟩
        by_cases hc : ((includesFacilityPort interfaces = true ∧
            facilityPortCount interfaces < 2) ∨ ero_enabled = true)
            ∧ basicNicCount interfaces = 0
        · rw [if_pos hc] at he; exact absurd he (by simp)
        · rw [if_neg hc] at he
          by_cases hl : 2 ≤ interfaces.length
          · rw [if_pos hl] at he; exact absurd he (by simp)
          · rw [if_neg hl] at he; exact absurd he (by simp)
      · intro h; omega
    · rw [if_neg h1, if_neg h2]
      constructor
      · intro _; omega
      · intro _; exact ⟨_, rfl⟩

/-- Witness for `calculate_l2_nstype_error_iff`: a three-site interface list
makes the resolver raise. -/
theorem calculate_l2_nstype_error_iff_witness :
    ∃ e, calculate_l2_nstype
      [{ name := "i1", site := "SiteA", nodeName := "n1",
         isFacilityPort := false, model := "NIC_ConnectX_5", host := none,
         vlan := none, fablibData := { addr := none, auto := false } },
       { name := "i2", site := "SiteB", nodeName := "n2",
         isFacilityPort := false, model := "NIC_ConnectX_5", host := none,
         vlan := none, fablibData := { addr := none, auto := false } },
       { name := "i3", site := "SiteC", nodeName := "n3",
         isFacilityPort := false, model := "NIC_ConnectX_5", host := none,
         vlan := none, fablibData := { addr := none, auto := false } }] false
      = .error e :=
  (calculate_l2_nstype_error_iff _ false).mpr (by decide)

/-- Appending to the `exception_list` accumulator only grows it: one
validator-loop step never drops a collected violation. -/
theorem stsStep_errs_subset (nps : String → Nat)
    (acc : List String × List String) (i : Interface) (m : String)
    (hm : m ∈ acc.2) : m ∈ (stsStep nps acc i).2 := by
  unfold stsStep
  by_cases hc : i.model = "NIC_Basic" ∧ 1 < nps i.site
  · rw [if_pos hc]
    match hhost : i.host with
    | none => exact List.mem_append_left _ hm
    | some h =>
      by_cases hmem : h ∈ acc.1
      · simp only [if_pos hmem]
        exact List.mem_append_left _ hm
      · simp only [if_neg hmem]
        exact hm
  · rw [if_neg hc]
    exact hm

/-- The whole validator loop never drops a collected violation. -/
theorem foldl_stsStep_errs_subset (nps : String → Nat)
    (l : List Interface) :
    ∀ (acc : List String × List String) (m : String), m ∈ acc.2 →
      m ∈ (l.foldl (stsStep nps) acc).2 := by
  induction l with
  | nil => intro acc m hm; exact hm
  | cons j l ih =>
    intro acc m hm
    exact ih (stsStep nps acc j) m (stsStep_errs_subset nps acc j m hm)

/-- Every unpinned `NIC_Basic` interface at a multiply-occupied site
contributes its "unbound" violation to the loop result, wherever it occurs
in the list. -/
theorem foldl_stsStep_mem_unbound (nps : String → Nat)
    (l : List Interface) (i : Interface) (hi : i ∈ l)
    (hm : i.model = "NIC_Basic") (hh : i.host = none)
    (hs : 1 < nps i.site) :
    ∀ acc : List String × List String,
      msgUnbound i.nodeName ∈ (l.foldl (stsStep nps) acc).2 := by
  induction l with
  | nil => cases hi
  | cons j l ih =>
    intro acc
    rcases List.mem_cons.mp hi with hij | hil
    · subst hij
      simp only [List.foldl_cons]
      apply foldl_stsStep_errs_subset
      unfold stsStep
      rw [if_pos ⟨hm, hs⟩, hh]
      exact List.mem_append_right _ (List.mem_singleton_self _)
    · simp only [List.foldl_cons]
      exact ih hil (stsStep nps acc j)

/-- One validator-loop step never removes a host from the `hosts` set. -/
theorem stsStep_hosts_subset (nps : String → Nat)
    (acc : List String × List String) (i : Interface) (x : String)
    (hx : x ∈ acc.1) : x ∈ (stsStep nps acc i).1 := by
  unfold stsStep
  by_cases hc : i.model = "NIC_Basic" ∧ 1 < nps i.site
  · rw [if_pos hc]
    match hhost : i.host with
    | none => exact hx
    | some h2 =>
      by_cases hmem : h2 ∈ acc.1
      · simp only [if_pos hmem]
        exact hx
      · simp only [if_neg hmem]
        exact List.mem_append_left _ hx
  · rw [if_neg hc]
    exact hx

/-- Processing a qualifying interface pinned to host `h` either records
`h` in the `hosts` set or emits the duplicate-host violation for `h`. -/
theorem stsStep_seen_or_dup (nps : String → Nat)
    (acc : List String × List String) (i : Interface) (h : String)
    (hm : i.model = "NIC_Basic") (hs : 1 < nps i.site)
    (hh : i.host = some h) :
    h ∈ (stsStep nps acc i).1 ∨ msgDupHost h ∈ (stsStep nps acc i).2 := by
  unfold stsStep
  rw [if_pos ⟨hm, hs⟩, hh]
  by_cases hmem : h ∈ acc.1
  · right
    simp only [if_pos hmem]
    exact List.mem_append_right _ (List.mem_singleton_self _)
  · left
    simp only [if_neg hmem]
    exact List.mem_append_right _ (List.mem_singleton_self _)

/-- Once host `h` is in the `hosts` set (or its duplicate-host violation
is already collected), any later qualifying interface pinned to `h` makes
the loop end with the duplicate-host violation for `h` collected. -/
theorem foldl_stsStep_dup_of_seen (nps : String → Nat) (h : String) :
    ∀ (l : List Interface) (acc : List String × List String)
      (k : Interface), k ∈ l → k.model = "NIC_Basic" → 1 < nps k.site →
      k.host = some h → (h ∈ acc.1 ∨ msgDupHost h ∈ acc.2) →
      msgDupHost h ∈ (l.foldl (stsStep nps) acc).2 := by
  intro l
  induction l with
  | nil => intro acc k hk; cases hk
  | cons y rest ih =>
    intro acc k hk hm hs hh hacc
    rcases hacc with hhost | herr
    · rcases List.mem_cons.mp hk with hky | hkr
      · subst hky
        have hstep : msgDupHost h ∈ (stsStep nps acc k).2 := by
          unfold stsStep
          rw [if_pos ⟨hm, hs⟩, hh]
          simp only [if_pos hhost]
          exact List.mem_append_right _ (List.mem_singleton_self _)
        simp only [List.foldl_cons]
        exact foldl_stsStep_errs_subset nps rest _ _ hstep
      · simp only [List.foldl_cons]
        exact ih (stsStep nps acc y) k hkr hm hs hh
          (Or.inl (stsStep_hosts_subset nps acc y h hhost))
    · simp only [List.foldl_cons]
      exact foldl_stsStep_errs_subset nps rest _ _
        (stsStep_errs_subset nps acc y _ herr)

/-- Two distinct qualifying `NIC_Basic` interfaces pinned to the same host
make the loop collect the duplicate-host violation for that host, from any
starting accumulator. -/
theorem foldl_stsStep_mem_dup (nps : String → Nat) (h : String) :
    ∀ (l : List Interface) (i j : Interface), i ∈ l → j ∈ l → i ≠ j →
      i.model = "NIC_Basic" → j.model = "NIC_Basic" →
      1 < nps i.site → 1 < nps j.site →
      i.host = some h → j.host = some h →
      ∀ acc : List String × List String,
        msgDupHost h ∈ (l.foldl (stsStep nps) acc).2 := by
  intro l
  induction l with
  | nil => intro i j hi; cases hi
  | cons x rest ih =>
    intro i j hi hj hij hmi hmj hsi hsj hhi hhj acc
    simp only [List.foldl_cons]
    by_cases hxi : x = i
    · subst hxi
      have hjr : j ∈ rest := by
        rcases List.mem_cons.mp hj with hjx | hjr
        · exact absurd hjx.symm hij
        · exact hjr
      rcases stsStep_seen_or_dup nps acc x h hmi hsi hhi with hseen | hdup
      · exact foldl_stsStep_dup_of_seen nps h rest _ j hjr hmj hsj hhj
          (Or.inl hseen)
      · exact foldl_stsStep_errs_subset nps rest _ _ hdup
    · by_cases hxj : x = j
      · subst hxj
        have hir : i ∈ rest := by
          rcases List.mem_cons.mp hi with hix | hir
          · exact absurd hix.symm (fun h2 => hij h2.symm)
          · exact hir
        rcases stsStep_seen_or_dup nps acc x h hmj hsj hhj with hseen | hdup
        · exact foldl_stsStep_dup_of_seen nps h rest _ i hir hmi hsi hhi
            (Or.inl hseen)
        · exact foldl_stsStep_errs_subset nps rest _ _ hdup
      · have hir : i ∈ rest := by
          rcases List.mem_cons.mp hi with h1 | h1
          · exact absurd h1.symm hxi
          · exact h1
        have hjr : j ∈ rest := by
          rcases List.mem_cons.mp hj with h1 | h1
          · exact absurd h1.symm hxj
          · exact h1
        exact ih i j hir hjr hij hmi hmj hsi hsj hhi hhj (stsStep nps acc x)

/-- Any collected host-colocation violation makes `__validate_nstype` (on
`L2STS` with more than two interfaces) raise, with that violation inside
the raised aggregate list. -/
theorem validate_l2sts_error_of_viol (interfaces : List Interface)
    (m : String) (hl : 2 < interfaces.length)
    (hsts : m ∈ stsViolations interfaces) :
    ∃ errs, validate_nstype .L2STS interfaces = .error errs ∧ m ∈ errs := by
  have hlen : ¬ interfaces.length = 0 := by omega
  have hmemE : m ∈
      ((if distinctSiteCount interfaces ≠ 2 then
          [msgTwoSites .L2STS (distinctSiteCount interfaces)]
        else []) ++
       (if 2 < interfaces.length then stsViolations interfaces else [])) := by
    apply List.mem_append_right
    rw [if_pos hl]
    exact hsts
  have hpos : 0 <
      ((if distinctSiteCount interfaces ≠ 2 then
          [msgTwoSites .L2STS (distinctSiteCount interfaces)]
        else []) ++
       (if 2 < interfaces.length then stsViolations interfaces else
         [])).length :=
    List.length_pos.mpr (List.ne_nil_of_mem hmemE)
  refine ⟨_, ?_, hmemE⟩
  simp only [validate_nstype]
  rw [if_neg hlen, if_pos hpos]

/-- Claim C3: for an `L2STS` service with more than two interfaces the
validator collects every host-colocation violation into one aggregate
failure, both kinds included: every unpinned `NIC_Basic` interface whose
site carries more than one non-facility interface has its missing-host-pin
violation present in the raised list, and every pair of distinct
`NIC_Basic` interfaces (at such sites) pinned to the same host has the
duplicate-host violation for that host present in the raised list.  In
particular, in the scenario with two unpinned such interfaces at one site
the failure reports a host-pin violation for each of them rather than
stopping at the first. -/
theorem validate_nstype_l2sts_collects (interfaces : List Interface)
    (hl : 2 < interfaces.length) :
    (∀ i ∈ interfaces, i.model = "NIC_Basic" → i.host = none →
       1 < npsCount interfaces i.site →
       ∃ errs, validate_nstype .L2STS interfaces = .error errs ∧
         msgUnbound i.nodeName ∈ errs) ∧
    (∀ (i j : Interface) (h : String), i ∈ interfaces → j ∈ interfaces →
       i ≠ j → i.model = "NIC_Basic" → j.model = "NIC_Basic" →
       1 < npsCount interfaces i.site → 1 < npsCount interfaces j.site →
       i.host = some h → j.host = some h →
       ∃ errs, validate_nstype .L2STS interfaces = .error errs ∧
         msgDupHost h ∈ errs) := by
  constructor
  · intro i hmem hm hh hs
    exact validate_l2sts_error_of_viol interfaces _ hl
      (foldl_stsStep_mem_unbound (npsCount interfaces) interfaces i hmem hm
        hh hs ([], []))
  · intro i j h hi hj hij hmi hmj hsi hsj hhi hhj
    exact validate_l2sts_error_of_viol interfaces _ hl
      (foldl_stsStep_mem_dup (npsCount interfaces) h interfaces i j hi hj
        hij hmi hmj hsi hsj hhi hhj ([], []))

/-- Witness for `validate_nstype_l2sts_collects`: on the concrete scenario
list — A and B unpinned `NIC_Basic` at site1, D and E `NIC_Basic` on
distinct nodes pinned to the same `host1` at site1, C at site2 — the
validation failure carries A's missing-host-pin violation and the
duplicate-host violation for `host1`. -/
theorem validate_nstype_l2sts_collects_witness :
    (∃ errs, validate_nstype .L2STS c3List = .error errs ∧
      msgUnbound "nodeA" ∈ errs) ∧
    (∃ errs, validate_nstype .L2STS c3List = .error errs ∧
      msgDupHost "host1" ∈ errs) :=
  ⟨(validate_nstype_l2sts_collects c3List (by decide)).1 c3IfaceA
      (by decide) (by decide) (by decide) (by decide),
   (validate_nstype_l2sts_collects c3List (by decide)).2 c3IfaceD c3IfaceE
      "host1" (by decide) (by decide) (by decide) (by decide) (by decide)
      (by decide) (by decide) (by decide) (by decide)⟩

/-- Claim C8 (counterexample).  The claim states that an unknown service
type fails validation for every interface set; with the empty interface set
the validator returns success before ever looking at the type. -/
theorem c8_counterexample :
    validate_nstype .FABNetv4 [] = .ok true := rfl

/-- Claim C8 (amended).  For every service type outside the known L2 types
and every NONEMPTY interface set, `__validate_nstype` raises the
"Unknown network type" exception (the empty interface set validates
immediately, per the early-return at lines 209-211). -/
theorem validate_nstype_unknown (t : ServiceType)
    (interfaces : List Interface) (h1 : t ≠ .L2Bridge) (h2 : t ≠ .L2PTP)
    (h3 : t ≠ .L2STS) (hne : interfaces ≠ []) :
    validate_nstype t interfaces =
      .error ["Unknown network type " ++ t.typeName] := by
  have hlen : ¬ interfaces.length = 0 := by
    intro h
    exact hne (List.length_eq_zero.mp h)
  cases t with
  | L2Bridge => exact absurd rfl h1
  | L2PTP => exact absurd rfl h2
  | L2STS => exact absurd rfl h3
  | PortMirror => unfold validate_nstype; rw [if_neg hlen]
  | FABNetv4 => unfold validate_nstype; rw [if_neg hlen]
  | FABNetv6 => unfold validate_nstype; rw [if_neg hlen]
  | FABNetv4Ext => unfold validate_nstype; rw [if_neg hlen]
  | FABNetv6Ext => unfold validate_nstype; rw [if_neg hlen]
  | L3VPN => unfold validate_nstype; rw [if_neg hlen]

/-- Witness for `validate_nstype_unknown`: a `PortMirror` service with one
interface fails validation as an unknown network type. -/
theorem validate_nstype_unknown_witness :
    validate_nstype .PortMirror
      [{ name := "A", site := "site1", nodeName := "nodeA",
         isFacilityPort := false, model := "NIC_Basic", host := none,
         vlan := none, fablibData := { addr := none, auto := false } }]
      = .error ["Unknown network type PortMirror"] :=
  validate_nstype_unknown .PortMirror _ (by decide) (by decide) (by decide)
    (by decide)

/-- A successful scan returns a listed address that is neither the network
address nor already allocated. -/
theorem scanHosts_some_mem (na : Nat) (alloc : List Nat) :
    ∀ (l : List Nat) (h : Nat), scanHosts na alloc l = some h →
      h ∈ l ∧ h ≠ na ∧ h ∉ alloc := by
  intro l
  induction l with
  | nil => intro h hh; simp [scanHosts] at hh
  | cons x rest ih =>
    intro h hh
    unfold scanHosts at hh
    by_cases hc : x ≠ na ∧ x ∉ alloc
    · rw [if_pos hc] at hh
      cases hh
      exact ⟨List.mem_cons_self _ _, hc.1, hc.2⟩
    · rw [if_neg hc] at hh
      obtain ⟨hm, hna, hal⟩ := ih h hh
      exact ⟨List.mem_cons_of_mem _ hm, hna, hal⟩

/-- On a strictly increasing list the scan returns the smallest qualifying
address: every smaller listed address is the network address or already
allocated. -/
theorem scanHosts_first (na : Nat) (alloc : List Nat) :
    ∀ (l : List Nat) (h : Nat), l.Pairwise (· < ·) →
      scanHosts na alloc l = some h →
      ∀ x ∈ l, x < h → x = na ∨ x ∈ alloc := by
  intro l
  induction l with
  | nil => intro h _ hh; simp [scanHosts] at hh
  | cons y rest ih =>
    intro h hp hh x hx hlt
    unfold scanHosts at hh
    by_cases hc : y ≠ na ∧ y ∉ alloc
    · rw [if_pos hc] at hh
      cases hh
      rcases List.mem_cons.mp hx with hxy | hxr
      · omega
      · have : y < x := (List.pairwise_cons.mp hp).1 x hxr
        omega
    · rw [if_neg hc] at hh
      rcases List.mem_cons.mp hx with hxy | hxr
      · subst hxy
        by_cases h1 : x = na
        · exact Or.inl h1
        · right
          by_contra h2
          exact hc ⟨h1, h2⟩
      · exact ih h (List.pairwise_cons.mp hp).2 hh x hxr hlt

/-- The scan comes back empty exactly when every listed address is the
network address or already allocated. -/
theorem scanHosts_none_iff (na : Nat) (alloc : List Nat) :
    ∀ l : List Nat, scanHosts na alloc l = none ↔
      ∀ x ∈ l, x = na ∨ x ∈ alloc := by
  intro l
  induction l with
  | nil => simp [scanHosts]
  | cons y rest ih =>
    unfold scanHosts
    by_cases hc : y ≠ na ∧ y ∉ alloc
    · rw [if_pos hc]
      constructor
      · intro hh; cases hh
      · intro hall
        rcases hall y (List.mem_cons_self _ _) with h1 | h1
        · exact absurd h1 hc.1
        · exact absurd h1 hc.2
    · rw [if_neg hc]
      constructor
      · intro hh x hx
        rcases List.mem_cons.mp hx with hxy | hxr
        · subst hxy
          by_cases h1 : x = na
          · exact Or.inl h1
          · right
            by_contra h2
            exact hc ⟨h1, h2⟩
        · exact (ih.mp hh) x hxr
      · intro hall
        exact ih.mpr (fun x hx => hall x (List.mem_cons_of_mem _ hx))

/-- Scanning past a block of disqualified addresses. -/
theorem scanHosts_append_skip (na : Nat) (alloc : List Nat) :
    ∀ l1 l2 : List Nat, (∀ x ∈ l1, x = na ∨ x ∈ alloc) →
      scanHosts na alloc (l1 ++ l2) = scanHosts na alloc l2 := by
  intro l1
  induction l1 with
  | nil => intro l2 _; rfl
  | cons y rest ih =>
    intro l2 hall
    have hy : y = na ∨ y ∈ alloc := hall y (List.mem_cons_self _ _)
    have hc : ¬ (y ≠ na ∧ y ∉ alloc) := by
      rintro ⟨h1, h2⟩
      rcases hy with h | h
      · exact h1 h
      · exact h2 h
    show (if y ≠ na ∧ y ∉ alloc then some y
          else scanHosts na alloc (rest ++ l2)) = scanHosts na alloc l2
    rw [if_neg hc]
    exact ih l2 (fun x hx => hall x (List.mem_cons_of_mem _ hx))

/-- The addresses of a subnet are strictly increasing. -/
theorem addresses_pairwise (s : Subnet) :
    s.addresses.Pairwise (· < ·) := by
  unfold Subnet.addresses
  exact (List.pairwise_lt_range s.numAddrs).map _
    (fun a b hab => Nat.add_lt_add_left hab _)

/-- Scanning a full ascending block: if every strictly earlier offset is
disqualified and offset `k` qualifies, the scan returns offset `k`. -/
theorem scanHosts_range_general (base : Nat) (alloc : List Nat) (n k : Nat)
    (hk : k < n)
    (hfail : ∀ j, j < k → base + j = base ∨ base + j ∈ alloc)
    (hsucc : base + k ≠ base) (hnot : base + k ∉ alloc) :
    scanHosts base alloc ((List.range n).map (fun j => base + j)) =
      some (base + k) := by
  obtain ⟨m, hm⟩ : ∃ m, n - k = m + 1 := ⟨n - k - 1, by omega⟩
  have hn : n = k + (m + 1) := by omega
  subst hn
  rw [List.range_add, List.map_append, scanHosts_append_skip]
  · rw [List.range_succ_eq_map]
    simp only [List.map_cons, List.map_map, Nat.add_zero]
    unfold scanHosts
    rw [if_pos ⟨hsucc, hnot⟩]
  · intro x hx
    obtain ⟨j, hj, rfl⟩ := List.mem_map.mp hx
    exact hfail j (List.mem_range.mp hj)

/-- Rewriting the allocated list leaves the rest of the blob alone, so the
state collapses back when the written list is the one already stored. -/
theorem withAllocated_eta (st : NetworkServiceState) (si : SubnetInfo)
    (l : List Nat) (h2 : st.fablibData.subnetInfo = some si)
    (h3 : si.allocated = some l) : withAllocated st si l = st := by
  obtain ⟨nm, ty, er, ifs, fd, sl, ss⟩ := st
  obtain ⟨inst, mode, sub⟩ := fd
  obtain ⟨ssub, gw, al⟩ := si
  dsimp only at h2 h3
  subst h3
  subst h2
  rfl

/-- Rewriting the allocated list does not change what `get_subnet` sees. -/
theorem get_subnet_net_withAllocated (st : NetworkServiceState)
    (si : SubnetInfo) (l : List Nat)
    (h2 : st.fablibData.subnetInfo = some si) :
    get_subnet_net (withAllocated st si l) = get_subnet_net st := by
  unfold get_subnet_net is_instantiated withAllocated
  dsimp only
  rw [h2]

/-- Behaviour of an automatic allocation on a state in allocator shape. -/
theorem allocate_ip_auto_withAllocated (st : NetworkServiceState)
    (si : SubnetInfo) (l : List Nat) (s : Subnet)
    (h2 : st.fablibData.subnetInfo = some si)
    (hg : get_subnet_net st = some s) :
    allocate_ip (withAllocated st si l) none =
      (match scanHosts s.networkAddress l s.addresses with
       | some h => .ok (some h, withAllocated st si (l ++ [h]))
       | none => .ok (none, withAllocated st si l)) := by
  have hgw : get_subnet_net (withAllocated st si l) = some s := by
    rw [get_subnet_net_withAllocated st si l h2, hg]
  have hgal : get_allocated_ips (withAllocated st si l).fablibData = l := rfl
  simp only [allocate_ip, hgal, hgw]
  cases scanHosts s.networkAddress l s.addresses <;> rfl

/-- Behaviour of a requested-address allocation on a state in allocator
shape. -/
theorem allocate_ip_req_withAllocated (st : NetworkServiceState)
    (si : SubnetInfo) (l : List Nat) (a : Nat) :
    allocate_ip (withAllocated st si l) (some a) =
      (if a ∈ l then .ok (none, withAllocated st si l)
       else .ok (some a, withAllocated st si (l ++ [a]))) := by
  have hgal : get_allocated_ips (withAllocated st si l).fablibData = l := rfl
  simp only [allocate_ip, hgal]
  by_cases h : a ∈ l
  · rw [if_neg (not_not_intro h), if_pos h]
  · rw [if_pos h, if_neg h]
    rfl

/-- Behaviour of a free on a state in allocator shape. -/
theorem free_ip_withAllocated (st : NetworkServiceState) (si : SubnetInfo)
    (l : List Nat) (a : Nat) :
    free_ip (withAllocated st si l) (some a) =
      withAllocated st si (if a ∈ l then l.erase a else l) := by
  have hgal : get_allocated_ips (withAllocated st si l).fablibData = l := rfl
  simp only [free_ip, hgal]
  by_cases h : a ∈ l
  · rw [if_pos h]
    rfl
  · rw [if_neg h]
    rfl

/-- Claim C2: behaviour of `allocate_ip` over a defined subnet `s` and
allocated set `alloc`.  (a) A successful automatic allocation returns a
subnet address that is neither the network address nor already allocated,
is the first such address in ascending order, and is recorded in the
allocated set.  (b) When every subnet address is the network address or
already allocated, the call returns `None` and leaves the state unchanged.
(c) When `get_subnet()` yields no network object the call returns `None`
unchanged.  (d) A requested-address allocation never returns an address
already in the allocated set.  (e) `N` automatic calls from an empty
allocated set on a subnet of `M` addresses with `N < M` return the `N`
ascending distinct addresses that follow the network address. -/
theorem allocate_ip_spec (st : NetworkServiceState) (s : Subnet)
    (si : SubnetInfo) (alloc : List Nat)
    (h1 : get_subnet_net st = some s)
    (h2 : st.fablibData.subnetInfo = some si)
    (h3 : si.allocated = some alloc) :
    (∀ (h : Nat) (st2 : NetworkServiceState),
       allocate_ip st none = .ok (some h, st2) →
       h ∈ s.addresses ∧ h ≠ s.networkAddress ∧ h ∉ alloc ∧
       (∀ x ∈ s.addresses, x < h → x = s.networkAddress ∨ x ∈ alloc) ∧
       get_allocated_ips st2.fablibData = alloc ++ [h]) ∧
    ((∀ x ∈ s.addresses, x = s.networkAddress ∨ x ∈ alloc) →
       allocate_ip st none = .ok (none, st)) ∧
    (∀ st3 : NetworkServiceState, get_subnet_net st3 = none →
       allocate_ip st3 none = .ok (none, st3)) ∧
    (∀ (a : Nat) (st2 : NetworkServiceState) (r : Option Nat),
       allocate_ip st (some a) = .ok (r, st2) →
       ∀ h : Nat, r = some h → h ∉ alloc) ∧
    (∀ N : Nat, alloc = [] → N < s.numAddrs →
       (allocAutoN st N).1 =
         (List.range N).map (fun k => s.networkAddress + (k + 1))) := by
  have hal : get_allocated_ips st.fablibData = alloc := by
    simp [get_allocated_ips, h2, h3]
  have hset : ∀ a : Nat, set_allocated_ip st.fablibData a =
      .ok ((withAllocated st si (alloc ++ [a])).fablibData) := by
    intro a
    simp [set_allocated_ip, withAllocated, h2, h3]
  refine ⟨?_, ?_, ?_, ?_, ?_⟩
  · intro h st2 heq
    simp only [allocate_ip, hal, h1] at heq
    cases hscan : scanHosts s.networkAddress alloc s.addresses with
    | none => rw [hscan] at heq; simp at heq
    | some h2' =>
      simp only [hscan, hset] at heq
      simp only [Except.ok.injEq, Prod.mk.injEq, Option.some.injEq] at heq
      obtain ⟨hh, hst⟩ := heq
      subst hh
      subst hst
      obtain ⟨hm, hna, hnal⟩ := scanHosts_some_mem _ _ _ _ hscan
      refine ⟨hm, hna, hnal, ?_, rfl⟩
      exact scanHosts_first _ _ _ _ (addresses_pairwise s) hscan
  · intro hex
    have hscan := (scanHosts_none_iff s.networkAddress alloc s.addresses).mpr hex
    simp only [allocate_ip, hal, h1, hscan]
  · intro st3 hnone
    simp only [allocate_ip, hnone]
  · intro a st2 r heq h hr
    subst hr
    simp only [allocate_ip, hal] at heq
    by_cases hmem : a ∈ alloc
    · rw [if_neg (not_not_intro hmem)] at heq
      simp at heq
    · rw [if_pos hmem, hset a] at heq
      simp only [Except.ok.injEq, Prod.mk.injEq, Option.some.injEq] at heq
      obtain ⟨hh, _⟩ := heq
      subst hh
      exact hmem
  · intro N halloc hN
    subst halloc
    have key : ∀ M : Nat, M < s.numAddrs →
        allocAutoN st M =
          ((List.range M).map (fun k => s.networkAddress + (k + 1)),
           withAllocated st si
             ((List.range M).map (fun k => s.networkAddress + (k + 1)))) := by
      intro M
      induction M with
      | zero =>
        intro _
        simp only [allocAutoN, List.range_zero, List.map_nil]
        rw [withAllocated_eta st si [] h2 h3]
      | succ M ih =>
        intro hM1
        have hM : M < s.numAddrs := by omega
        have hL := ih hM
        have hscan : scanHosts s.networkAddress
            ((List.range M).map (fun k => s.networkAddress + (k + 1)))
            s.addresses = some (s.networkAddress + (M + 1)) := by
          have haddr : s.addresses =
              (List.range s.numAddrs).map (fun j => s.networkAddress + j) := rfl
          rw [haddr]
          apply scanHosts_range_general s.networkAddress _ s.numAddrs (M + 1)
            hM1
          · intro j hj
            cases j with
            | zero => left; omega
            | succ j' =>
              right
              exact List.mem_map.mpr ⟨j', List.mem_range.mpr (by omega), rfl⟩
          · omega
          · intro hmem
            obtain ⟨j, hj, hje⟩ := List.mem_map.mp hmem
            have := List.mem_range.mp hj
            omega
        have hallc := allocate_ip_auto_withAllocated st si
          ((List.range M).map (fun k => s.networkAddress + (k + 1))) s h2 h1
        rw [hscan] at hallc
        simp only [allocAutoN]
        rw [hL]
        dsimp only
        rw [hallc]
        dsimp only
        rw [List.range_succ, List.map_append]
        rfl
    rw [key N hN]

/-- Witness for `allocate_ip_spec`: two automatic allocations on the empty
/30 state return addresses 1 and 2 in order. -/
theorem allocate_ip_spec_witness :
    (allocAutoN c2State 2).1 = [1, 2] := by
  have h := allocate_ip_spec c2State subnet30
    ⟨some subnet30, none, some []⟩ [] (by decide) (by decide) (by decide)
  exact (h.2.2.2.2 2 rfl (by decide)).trans (by decide)

/-- Claim C6 (counterexample).  On an instantiated service with the /30
subnet set via `set_subnet`, three automatic allocations allocate addresses
1, 2 and 3 — and 3 is the IPv4 broadcast address, outside the subnet's host
range, so the allocated set is not a subset of the host range. -/
theorem c6_counterexample :
    get_allocated_ips
        (runOps c6Init [.auto, .auto, .auto]).fablibData = [1, 2, 3] ∧
    subnet30.broadcastAddress = 3 ∧
    (3 : Nat) ∉ subnet30.hostRange := by
  refine ⟨by decide, by decide, by decide⟩

/-- Appending a fresh element preserves distinctness. -/
theorem nodup_concat_of (l : List Nat) (h : Nat) (hl : l.Nodup)
    (hn : h ∉ l) : (l ++ [h]).Nodup := by
  rw [List.nodup_append]
  refine ⟨hl, List.nodup_singleton h, ?_⟩
  intro x hx hx1
  rw [List.mem_singleton] at hx1
  subst hx1
  exact hn hx

/-- Claim C6 (amended).  Starting from an L2 service whose subnet was set
via `set_subnet`, after any sequence of `allocate_ip` and `free_ip`
operations the persisted allocated list contains no duplicates, and — when
no operation requested an explicit address — every allocated address
belongs to the subnet and differs from its network address.  (The original
claim fails twice: the scan skips only the network address, so the IPv4
broadcast address is allocatable, and a requested address is recorded
without any subnet-membership check.) -/
theorem allocator_invariant (st0 : NetworkServiceState) (s : Subnet)
    (ops : List AllocOp) (hL2 : st0.nstype.layer = .L2) :
    (get_allocated_ips
      (runOps { st0 with fablibData := set_subnet_fd st0.fablibData s }
        ops).fablibData).Nodup ∧
    ((∀ op ∈ ops, ∀ a : Nat, op ≠ .req a) →
      ∀ a ∈ get_allocated_ips
        (runOps { st0 with fablibData := set_subnet_fd st0.fablibData s }
          ops).fablibData,
        a ∈ s.addresses ∧ a ≠ s.networkAddress) := by
  suffices hgen : ∀ (stI : NetworkServiceState) (si1 : SubnetInfo),
      stI.fablibData.subnetInfo = some si1 → si1.subnet = some s →
      si1.allocated = some [] → stI.nstype.layer = .L2 →
      (get_allocated_ips (runOps stI ops).fablibData).Nodup ∧
      ((∀ op ∈ ops, ∀ a : Nat, op ≠ .req a) →
        ∀ a ∈ get_allocated_ips (runOps stI ops).fablibData,
          a ∈ s.addresses ∧ a ≠ s.networkAddress) by
    rcases hfd : st0.fablibData.subnetInfo with _ | si0
    · exact hgen _ ⟨some s, none, some []⟩
        (by simp [set_subnet_fd, hfd]) rfl rfl hL2
    · exact hgen _ { si0 with subnet := some s, allocated := some [] }
        (by simp [set_subnet_fd, hfd]) rfl rfl hL2
  intro stI si1 hsub1 hsubs halloc1 hL2I
  have hInitEta : withAllocated stI si1 [] = stI :=
    withAllocated_eta stI si1 [] hsub1 halloc1
  have hgs : get_subnet_net stI = some s ∨ get_subnet_net stI = none := by
    unfold get_subnet_net
    by_cases hin : is_instantiated stI = true
    · left
      rw [if_pos hin, hL2I, hsub1]
      dsimp only
      exact hsubs
    · rw [if_neg hin]
      exact Or.inr rfl
  have main : ∀ (ops2 : List AllocOp) (l : List Nat), l.Nodup →
      ∃ l2, runOps (withAllocated stI si1 l) ops2 =
          withAllocated stI si1 l2 ∧ l2.Nodup ∧
        ∀ a ∈ l2, a ∈ l ∨ (a ∈ s.addresses ∧ a ≠ s.networkAddress) ∨
          (∃ b, AllocOp.req b ∈ ops2 ∧ a = b) := by
    intro ops2
    induction ops2 with
    | nil =>
      intro l hnd
      exact ⟨l, rfl, hnd, fun a ha => Or.inl ha⟩
    | cons op ops2 ih =>
      intro l hnd
      obtain ⟨l1, hstep, hnd1, hmem1⟩ : ∃ l1,
          applyOp (withAllocated stI si1 l) op = withAllocated stI si1 l1 ∧
          l1.Nodup ∧
          ∀ a ∈ l1, a ∈ l ∨ (a ∈ s.addresses ∧ a ≠ s.networkAddress) ∨
            (∃ b, op = AllocOp.req b ∧ a = b) := by
        cases op with
        | auto =>
          rcases hgs with hgs1 | hgs1
          · have hac := allocate_ip_auto_withAllocated stI si1 l s hsub1 hgs1
            cases hscan : scanHosts s.networkAddress l s.addresses with
            | some h =>
              rw [hscan] at hac
              obtain ⟨hm, hna, hnal⟩ := scanHosts_some_mem _ _ _ _ hscan
              refine ⟨l ++ [h], by simp [applyOp, hac],
                nodup_concat_of l h hnd hnal, ?_⟩
              intro a ha
              rcases List.mem_append.mp ha with h1 | h1
              · exact Or.inl h1
              · rw [List.mem_singleton] at h1
                subst h1
                exact Or.inr (Or.inl ⟨hm, hna⟩)
            | none =>
              rw [hscan] at hac
              exact ⟨l, by simp [applyOp, hac], hnd, fun a ha => Or.inl ha⟩
          · have hgw : get_subnet_net (withAllocated stI si1 l) = none := by
              rw [get_subnet_net_withAllocated _ _ _ hsub1, hgs1]
            have hac : allocate_ip (withAllocated stI si1 l) none =
                .ok (none, withAllocated stI si1 l) := by
              simp [allocate_ip, hgw]
            exact ⟨l, by simp [applyOp, hac], hnd, fun a ha => Or.inl ha⟩
        | req b =>
          have hrq := allocate_ip_req_withAllocated stI si1 l b
          by_cases hb : b ∈ l
          · rw [if_pos hb] at hrq
            exact ⟨l, by simp [applyOp, hrq], hnd, fun a ha => Or.inl ha⟩
          · rw [if_neg hb] at hrq
            refine ⟨l ++ [b], by simp [applyOp, hrq],
              nodup_concat_of l b hnd hb, ?_⟩
            intro a ha
            rcases List.mem_append.mp ha with h1 | h1
            · exact Or.inl h1
            · rw [List.mem_singleton] at h1
              exact Or.inr (Or.inr ⟨b, rfl, h1⟩)
        | free b =>
          have hfr := free_ip_withAllocated stI si1 l b
          refine ⟨if b ∈ l then l.erase b else l,
            by simp only [applyOp, hfr], ?_, ?_⟩
          · by_cases hb : b ∈ l
            · rw [if_pos hb]
              exact hnd.erase b
            · rw [if_neg hb]
              exact hnd
          · intro a ha
            by_cases hb : b ∈ l
            · rw [if_pos hb] at ha
              exact Or.inl (List.mem_of_mem_erase ha)
            · rw [if_neg hb] at ha
              exact Or.inl ha
      obtain ⟨l2, hrun, hnd2, hmem2⟩ := ih l1 hnd1
      refine ⟨l2, ?_, hnd2, ?_⟩
      · show (op :: ops2).foldl applyOp (withAllocated stI si1 l) =
          withAllocated stI si1 l2
        rw [List.foldl_cons, hstep]
        exact hrun
      · intro a ha
        rcases hmem2 a ha with h1 | h1 | h1
        · rcases hmem1 a h1 with h2 | h2 | h2
          · exact Or.inl h2
          · exact Or.inr (Or.inl h2)
          · obtain ⟨b, hb1, hb2⟩ := h2
            refine Or.inr (Or.inr ⟨b, ?_, hb2⟩)
            rw [hb1]
            exact List.mem_cons_self _ _
        · exact Or.inr (Or.inl h1)
        · obtain ⟨b, hb1, hb2⟩ := h1
          exact Or.inr (Or.inr ⟨b, List.mem_cons_of_mem _ hb1, hb2⟩)
  obtain ⟨lf, hrunf, hndf, hmemf⟩ := main ops [] List.nodup_nil
  rw [hInitEta] at hrunf
  have half : get_allocated_ips
      (withAllocated stI si1 lf).fablibData = lf := rfl
  rw [hrunf, half]
  refine ⟨hndf, ?_⟩
  intro hnoreq a ha
  rcases hmemf a ha with h1 | h1 | h1
  · cases h1
  · exact h1
  · obtain ⟨b, hb1, hb2⟩ := h1
    exact absurd rfl (hnoreq _ hb1 b)

/-- Witness for `allocator_invariant`: an auto-allocate, free, auto-allocate
sequence on the /30 service keeps the allocated list duplicate-free and
inside the subnet away from its network address. -/
theorem allocator_invariant_witness :
    (get_allocated_ips
      (runOps { c6Base with
          fablibData := set_subnet_fd c6Base.fablibData subnet30 }
        [.auto, .free 1, .auto]).fablibData).Nodup ∧
    (∀ a ∈ get_allocated_ips
        (runOps { c6Base with
            fablibData := set_subnet_fd c6Base.fablibData subnet30 }
          [.auto, .free 1, .auto]).fablibData,
      a ∈ subnet30.addresses ∧ a ≠ subnet30.networkAddress) := by
  have h := allocator_invariant c6Base subnet30 [.auto, .free 1, .auto]
    (by decide)
  refine ⟨h.1, h.2 ?_⟩
  intro op hop a
  simp only [List.mem_cons, List.mem_singleton] at hop
  rcases hop with rfl | rfl | rfl | hop
  · exact fun h2 => nomatch h2
  · exact fun h2 => nomatch h2
  · exact fun h2 => nomatch h2
  · cases hop

/-- Re-assembling an interface from its own blob is the identity. -/
theorem iface_eta (i : Interface) :
    ({ i with fablibData := i.fablibData } : Interface) = i := rfl

/-- Replacing an element by itself across a list is the identity. -/
theorem map_if_update_self (i : Interface) :
    ∀ l : List Interface, l.map (fun j => if j = i then i else j) = l := by
  intro l
  induction l with
  | nil => rfl
  | cons x xs ih =>
    simp only [List.map_cons, ih]
    by_cases h : x = i
    · rw [if_pos h, h]
    · rw [if_neg h]

/-- Claim C7: `add_interface` on a `PortMirror` service raises, but
`remove_interface` has no such guard: on the concrete two-interface
`PortMirror` service it detaches the interface (and even migrates the
service to `L2Bridge`), contradicting the fixed-membership invariant that
the `add_interface` guard itself documents. -/
theorem portmirror_remove_divergence :
    (add_interface pmState pmIfaceC).isOk = false ∧
    pmState.interfaces = [pmIfaceA, pmIfaceB] ∧
    remove_interface pmState pmIfaceA = .ok pmAfterRemove ∧
    pmIfaceA ∉ pmAfterRemove.interfaces ∧
    pmAfterRemove.nstype ≠ .PortMirror := by
  refine ⟨by decide, by decide, by decide, by decide, by decide⟩

/-- Claim C4: adding a third interface to a two-interface strict
point-to-point service for which the resolver now computes `L2STS` makes
`add_interface` migrate the service: the result carries the newly computed
type with all three interfaces attached, and the metadata blob equals the
pre-migration blob.  The added interface carries no address request
(`addr`/`auto` unset), so the allocator is not invoked. -/
theorem add_interface_migration (st : NetworkServiceState) (i3 : Interface)
    (hptp : st.nstype = .L2PTP)
    (hlen : st.interfaces.length = 2)
    (hcalc : calculate_l2_nstype (st.interfaces ++ [i3]) st.ero =
      .ok (some .L2STS))
    (haddr : i3.fablibData.addr = none)
    (hauto : i3.fablibData.auto = false) :
    add_interface st i3 =
      .ok ({ st with nstype := .L2STS, interfaces := st.interfaces ++ [i3] }, i3) ∧
    ({ st with nstype := .L2STS, interfaces := st.interfaces ++ [i3] } : NetworkServiceState).fablibData = st.fablibData := by
  refine ⟨?_, rfl⟩
  have hne : ¬ st.nstype = ServiceType.PortMirror := by
    rw [hptp]
    decide
  unfold add_interface
  rw [if_neg hne]
  simp only [hptp]
  rw [if_pos (show ServiceType.L2PTP.layer = NSLayer.L2 from rfl)]
  rw [hcalc]
  dsimp only
  rw [if_pos (show some ServiceType.L2PTP ≠ some ServiceType.L2STS by decide)]
  dsimp only [replace_network_service]
  rw [haddr]
  dsimp only
  rw [hauto]
  rw [if_neg (show ¬ (false = true) by decide)]
  rw [ite_self]
  dsimp only
  simp only [iface_eta, map_if_update_self]
  rw [if_neg (show ¬ (({ st with nstype := ServiceType.L2STS, interfaces := st.interfaces ++ [i3] } : NetworkServiceState).nstype.layer = NSLayer.L3) from fun h => nomatch h)]

/-- Witness for `add_interface_migration`: adding a basic-NIC interface to
the concrete two-interface `L2PTP` service migrates it to `L2STS` with all
three interfaces and the same blob. -/
theorem add_interface_migration_witness :
    add_interface c4State c4Iface3 =
      .ok ({ c4State with nstype := .L2STS, interfaces := c4State.interfaces ++ [c4Iface3] }, c4Iface3) :=
  (add_interface_migration c4State c4Iface3 (by decide) (by decide)
    (by decide) (by decide) (by decide)).1

/-- Claim C10 (counterexample).  Adding a facility interface to a
single-interface bridge newly forms an `L2PTP` service, but `add_interface`
performs no VLAN pairing: both interfaces still carry no VLAN tag, where
the claim requires both to receive the default tag. -/
theorem c10_counterexample :
    add_interface c10State c10Iface2 = .ok (c10After, c10Iface2) ∧
    c10After.nstype = .L2PTP ∧
    c10After.interfaces.map Interface.vlan = [none, none] ∧
    ¬ c10After.interfaces.map Interface.vlan = [some "100", some "100"] := by
  refine ⟨by decide, by decide, by decide, by decide⟩

/-- Claim C10 (amended).  The automatic VLAN pairing is performed at
service creation by `new_l2network` when the resolved type is the strict
point-to-point one: the first two interfaces are paired (both receive the
default tag `"100"` when neither has one; when exactly one has a tag the
other is set to match), and the created service carries the paired
interfaces. -/
theorem new_l2network_vlan_pairing (nm : String) (i0 i1 : Interface)
    (rest : List Interface)
    (hcalc : calculate_l2_nstype (i0 :: i1 :: rest) false =
      .ok (some .L2PTP))
    (hval : validate_nstype .L2PTP (i0 :: i1 :: rest) = .ok true) :
    new_l2network nm (i0 :: i1 :: rest) none =
      .ok { name := nm, nstype := .L2PTP, ero := false, interfaces := (pairVlans i0 i1).1 :: (pairVlans i0 i1).2 :: rest, fablibData := init_fablib_data, sliverSubnet := none, sliverSite := none } ∧
    (i0.vlan = none → i1.vlan = none →
      (pairVlans i0 i1).1.vlan = some "100" ∧
      (pairVlans i0 i1).2.vlan = some "100") ∧
    (∀ v, i0.vlan = none → i1.vlan = some v →
      (pairVlans i0 i1).1.vlan = some v ∧
      (pairVlans i0 i1).2.vlan = some v) ∧
    (∀ v, i0.vlan = some v → i1.vlan = none →
      (pairVlans i0 i1).1.vlan = some v ∧
      (pairVlans i0 i1).2.vlan = some v) := by
  refine ⟨?_, ?_, ?_, ?_⟩
  · unfold new_l2network
    rw [hcalc]
    dsimp only
    rw [hval]
    rw [if_pos ⟨rfl, by simp⟩]
  · intro h0 h1
    simp [pairVlans, h0, h1]
  · intro v h0 h1
    simp [pairVlans, h0, h1]
  · intro v h0 h1
    simp [pairVlans, h0, h1]

/-- Witness for `new_l2network_vlan_pairing`: creating a two-interface
`L2PTP` service where only the second interface carries VLAN `"200"`
returns the paired interfaces. -/
theorem new_l2network_vlan_pairing_witness :
    new_l2network "netV" [vlanWIface0, vlanWIface1] none =
      .ok { name := "netV", nstype := .L2PTP, ero := false, interfaces := (pairVlans vlanWIface0 vlanWIface1).1 :: (pairVlans vlanWIface0 vlanWIface1).2 :: [], fablibData := init_fablib_data, sliverSubnet := none, sliverSite := none } :=
  (new_l2network_vlan_pairing "netV" vlanWIface0 vlanWIface1 []
    (by decide) (by decide)).1

/-- Looking a key up right after setting it yields the set value. -/
theorem assocGet_assocSet (m : List (String × JValue)) (k : String)
    (v : JValue) : assocGet (assocSet m k v) k = some v := by
  induction m with
  | nil =>
    unfold assocSet assocGet
    rw [if_pos rfl]
  | cons p rest ih =>
    obtain ⟨k2, v2⟩ := p
    unfold assocSet
    by_cases h : k2 = k
    · rw [if_pos h]
      unfold assocGet
      rw [if_pos rfl]
    · rw [if_neg h]
      unfold assocGet
      rw [if_neg h]
      exact ih

/-- Claim C9: writing a metadata blob with `set_fablib_data` and reading it
back with `get_fablib_data` returns the same blob, for every prior state of
the `user_data` property — attribute persistence of the blob is
lossless. -/
theorem set_get_fablib_data_roundtrip (store : Option JValue) (x : JValue) :
    get_fablib_data (set_fablib_data store x) = x := by
  have h1 : getUserDataStore (set_fablib_data store x) =
      assocSet (getUserDataStore store) "fablib_data" x := rfl
  unfold get_fablib_data
  rw [h1, assocGet_assocSet]
  rfl
